import Mathlib

/-!
# Verification of the InterviewSession turn-taking engine

Shallow embedding of `src/frontend/src/components/InterviewSession.jsx`
(the ref-based variant that `App.jsx` mounts).  React `useState` values and
`useRef` cells become fields of `SessionState`; the asynchronous
`doSubmit` is split at its single `await` boundary into a synchronous
prefix (`doSubmitSync`, everything up to and including issuing the network
request) and a continuation (`doSubmitResume`, the code run when the
`submitAnswer` promise settles).  Timer callbacks, the speech-recognition
event handlers and the manual button become pure step functions, and an
event machine (`Machine`/`step`) models the single-threaded event loop so
that properties over arbitrary interleavings of triggers can be stated.
-/

namespace InterviewSession

/-- `TOTAL_QUESTIONS` constant (InterviewSession.jsx line 4). -/
def TOTAL_QUESTIONS : Nat := 5

/-- `MAX_RECORD_SECONDS` constant (line 5): the hard ceiling, in seconds. -/
def MAX_RECORD_SECONDS : Nat := 120

/-- `SILENCE_TIMEOUT_MS` constant (line 6). -/
def SILENCE_TIMEOUT_MS : Nat := 12000

/-- The `status` state variable: `'speaking' | 'recording' | 'processing' | 'idle'`. -/
inductive Status where
  | speaking
  | recording
  | processing
  | idle
deriving DecidableEq, Repr

/-- A live `SpeechRecognition` connection: its configuration fields and the
three handlers attached to it.  Handlers are identified abstractly by
numbers (the closures created inside `startListeningFn`). -/
structure Recognition where
  continuous : Bool
  interimResults : Bool
  lang : String
  onresult : Nat
  onerror : Nat
  onend : Nat
  started : Bool
deriving DecidableEq, Repr

/-- The component state: every `useState` value and every `useRef` cell of
`InterviewSession.jsx` (lines 9-31), plus the immutable `sessionId` prop.
`timerIntervalActive` / `silenceArmed` model whether the `setInterval` /
`setTimeout` handles held in `timerIntervalRef` / `silenceTimeoutRef` are
live. -/
structure SessionState where
  sessionId : String
  currentQuestion : String
  questionNumber : Nat
  transcript : String
  isRecording : Bool
  isSpeaking : Bool
  status : Status
  error : String
  timer : Nat
  recognition : Option Recognition
  timerIntervalActive : Bool
  silenceArmed : Bool
  transcriptRef : String
  isSubmitting : Bool
  shouldListen : Bool
  currentQuestionRef : String
  previousQuestionsRef : List String
  previousAnswersRef : List String
  questionNumberRef : Nat
deriving DecidableEq, Repr

/-- Initial state on mount (lines 9-31): question number 1, empty
transcript, no recognition, flags down. -/
def initialState (sessionId firstQuestion : String) : SessionState :=
  { sessionId := sessionId
    currentQuestion := firstQuestion
    questionNumber := 1
    transcript := ""
    isRecording := false
    isSpeaking := false
    status := Status.speaking
    error := ""
    timer := MAX_RECORD_SECONDS
    recognition := none
    timerIntervalActive := false
    silenceArmed := false
    transcriptRef := ""
    isSubmitting := false
    shouldListen := false
    currentQuestionRef := firstQuestion
    previousQuestionsRef := []
    previousAnswersRef := []
    questionNumberRef := 1 }

/-- `cleanupRecording` (lines 64-79): clear `shouldListenRef`, abort and
drop the recognition, clear both timer handles, drop `isRecording`. -/
def cleanupRecording (s : SessionState) : SessionState :=
  { s with
    shouldListen := false
    recognition := none
    timerIntervalActive := false
    silenceArmed := false
    isRecording := false }

/-- Whitespace as recognised by JavaScript's `String.prototype.trim` (the
common cases: space, tab, newline, carriage return). -/
def wsChar (c : Char) : Bool :=
  c = ' ' || c = '\t' || c = '\n' || c = '\r'

/-- Executable model of JavaScript's `String.prototype.trim` (used at
line 85, `transcriptRef.current.trim()`): drop whitespace from both ends. -/
def jsTrim (s : String) : String :=
  ⟨((s.data.dropWhile wsChar).reverse.dropWhile wsChar).reverse⟩

/-- The request body handed to `submitAnswer` (lines 108-114). -/
structure SubmitRequest where
  session_id : String
  current_question : String
  current_answer : String
  previous_questions : List String
  previous_answers : List String
deriving DecidableEq, Repr

/-- What the synchronous prefix of `doSubmit` does before any `await`:
either it returns at the in-flight guard (line 83), returns on the empty
transcript treating it as a false start (lines 86-95, scheduling a restart
after `delayMs`), or it issues the network request (lines 97-114). -/
inductive SubmitOutcome where
  | noop
  | falseStart (delayMs : Nat)
  | request (req : SubmitRequest)
deriving DecidableEq, Repr

/-- The synchronous prefix of `doSubmit` (lines 82-114), everything up to
the `await submitAnswer(...)`.  The in-flight check (line 83), the trim and
empty-answer branch (lines 85-95), setting the in-flight flag (line 97),
`cleanupRecording()` (line 98), status/error updates (lines 99-100) and
reading the latest ref values into locals (lines 103-105) all happen in
this one synchronous block — no `await` separates the check from the set. -/
def doSubmitSync (s : SessionState) : SessionState × SubmitOutcome :=
  if s.isSubmitting then
    (s, SubmitOutcome.noop)
  else
    let answer := jsTrim s.transcriptRef
    if answer = "" then
      ({ cleanupRecording s with error := "No speech detected. Listening again…" },
       SubmitOutcome.falseStart 2000)
    else
      let s1 := cleanupRecording { s with isSubmitting := true }
      ({ s1 with status := Status.processing, error := "" },
       SubmitOutcome.request
         { session_id := s.sessionId
           current_question := s.currentQuestionRef
           current_answer := answer
           previous_questions := s.previousQuestionsRef
           previous_answers := s.previousAnswersRef })

/-- How the `submitAnswer` promise settles: a next-question response
`{ next_question, question_count }`, a `{ final_report }` response, or a
rejection carrying `err.message`. -/
inductive RemoteResult where
  | nextQuestion (next_question : String) (question_count : Nat)
  | finalReport (report : String)
  | failure (message : String)
deriving DecidableEq, Repr

/-- The continuation of `doSubmit` after the `await` (lines 116-146),
parameterised by the locals `q`, `answer`, `prevQ`, `prevA` captured in
`req` before the await.  Returns the new state and, when the response was
a final report, the payload passed to `onComplete`.  On a next-question
response the histories are extended with exactly the captured pair
(lines 127-128); on rejection the error is surfaced with the
`err.message || '...'` fallback and status becomes idle (lines 143-145). -/
def doSubmitResume (req : SubmitRequest) (s : SessionState) (r : RemoteResult) :
    SessionState × Option String :=
  match r with
  | RemoteResult.finalReport rep =>
      ({ s with isSubmitting := false }, some rep)
  | RemoteResult.nextQuestion nq qc =>
      ({ s with
          previousQuestionsRef := req.previous_questions ++ [req.current_question]
          previousAnswersRef := req.previous_answers ++ [req.current_answer]
          currentQuestionRef := nq
          questionNumberRef := qc + 1
          currentQuestion := nq
          questionNumber := qc + 1
          transcript := ""
          transcriptRef := ""
          isSubmitting := false
          status := Status.speaking }, none)
  | RemoteResult.failure msg =>
      ({ s with
          error := if msg = "" then "Something went wrong. Please try again." else msg
          status := Status.idle
          isSubmitting := false }, none)

/-- The fresh `SpeechRecognition` built inside `startListeningFn`
(lines 173-176) with the given handler closures. -/
def newRecognition (onres onerr onendH : Nat) : Recognition :=
  { continuous := true
    interimResults := true
    lang := "en-US"
    onresult := onres
    onerror := onerr
    onend := onendH
    started := true }

/-- `startListeningFn` (lines 155-238, without the timer-callback bodies,
which are modelled as separate step functions): clean up the previous
recording, reset transcript/error/timer/flags, build and start a fresh
recognition, arm both timers. -/
def startListeningFn (s : SessionState) : SessionState :=
  let s0 := cleanupRecording s
  { s0 with
    transcript := ""
    transcriptRef := ""
    error := ""
    timer := MAX_RECORD_SECONDS
    isSubmitting := false
    shouldListen := true
    recognition := some (newRecognition 0 1 2)
    isRecording := true
    status := Status.recording
    silenceArmed := true
    timerIntervalActive := true }

/-- The scheduled callback of the false-start branch (lines 90-93): clear
the error, then `startListeningFn()`. -/
def falseStartRestart (s : SessionState) : SessionState :=
  startListeningFn { s with error := "" }

/-- One entry of a `SpeechRecognitionEvent`'s results slice (from
`event.resultIndex` on): the `isFinal` flag and `result[0].transcript`. -/
structure Fragment where
  isFinal : Bool
  text : String
deriving DecidableEq, Repr

/-- The loop body of `recognition.onresult` (lines 196-204): fold the
event's results into the closure accumulator `finalTranscript` (finalized
fragments are appended with a trailing space) and the per-event `interim`
string. -/
def processEvent (finalT : String) (ev : List Fragment) : String × String :=
  ev.foldl
    (fun acc f =>
      if f.isFinal then (acc.1 ++ f.text ++ " ", acc.2) else (acc.1, acc.2 ++ f.text))
    (finalT, "")

/-- `recognition.onresult` (lines 195-209): compute the new
`finalTranscript` and interim, store `full = finalTranscript + interim`
into both the ref and the state, and rearm the silence timer.  Returns the
updated closure accumulator together with the new state. -/
def onresultHandler (finalT : String) (ev : List Fragment) (s : SessionState) :
    String × SessionState :=
  let p := processEvent finalT ev
  let full := p.1 ++ p.2
  (p.1, { s with transcriptRef := full, transcript := full, silenceArmed := true })

/-- What the silence-timeout callback decides (lines 183-192): rearm
itself (output driver still speaking), trigger `doSubmit`, or do nothing. -/
inductive SilenceOutcome where
  | rearm
  | trigger
  | skip
deriving DecidableEq, Repr

/-- The silence-timeout callback (lines 183-192).  `speaking` is
`window.speechSynthesis?.speaking` read at firing time: if the agent's
voice is still playing the timer rearms and returns; otherwise `doSubmit`
is invoked only when no submission is in flight and listening is still
wanted. -/
def silenceFireHandler (speaking : Bool) (s : SessionState) : SilenceOutcome :=
  if speaking then SilenceOutcome.rearm
  else if !s.isSubmitting && s.shouldListen then SilenceOutcome.trigger
  else SilenceOutcome.skip

/-- The ceiling-timer interval callback (lines 241-252).  `speaking` is
the output-driver state available in the environment at firing time; the
callback never reads it.  Returns the state with the decremented (or
zeroed) countdown and whether `doSubmit` is invoked on this tick. -/
def ceilingTickSess (speaking : Bool) (s : SessionState) : SessionState × Bool :=
  if s.timer ≤ 1 then
    ({ s with timer := 0 }, !s.isSubmitting)
  else
    ({ s with timer := s.timer - 1 }, false)

/-- `recognition.onend` (lines 217-232): when the engine stops while the
controller still wants input and no submission is in flight, build a fresh
recognition with the same three handlers re-attached, store it in
`recognitionRef` and start it; otherwise do nothing. -/
def onendHandler (rec : Recognition) (s : SessionState) : SessionState :=
  if s.shouldListen && !s.isSubmitting then
    { s with
      recognition := some
        { continuous := true
          interimResults := true
          lang := "en-US"
          onresult := rec.onresult
          onerror := rec.onerror
          onend := rec.onend
          started := true } }
  else s

/-- An event on the single-threaded event queue during a listening phase:
the manual "Done Speaking" click (lines 279-283), the silence timeout
firing (with the output driver's `speaking` read at that instant), a tick
of the ceiling interval, the capture engine's `onend`, a recognition
result event, the firing of a scheduled false-start restart timeout
(the anonymous `setTimeout` at lines 90-93, whose handle is never stored
and so can never be cleared by `cleanupRecording`), or the settling of an
outstanding `submitAnswer` call. -/
inductive Event where
  | manualDone
  | silenceFire (speaking : Bool)
  | ceilingTick (speaking : Bool)
  | engineEnd
  | result (ev : List Fragment)
  | falseStartTimeout
  | response (r : RemoteResult)
deriving DecidableEq, Repr

/-- The event-loop configuration: the component state, the
`finalTranscript` closure accumulator of the current listening phase, the
list of submissions currently outstanding on the network (requests issued
and not yet settled), the number of false-start restart timeouts
currently scheduled (each `setTimeout` at lines 90-93 is anonymous, so
none can be cancelled and each eventually fires), and the payload passed
to `onComplete` if any. -/
structure Machine where
  sess : SessionState
  finalT : String
  pending : List SubmitRequest
  restarts : Nat
  completed : Option String
deriving DecidableEq, Repr

/-- Invoking `doSubmit` from an event handler: run the synchronous prefix;
if it issues a network request, that request becomes outstanding; if it
takes the false-start branch, an uncancellable restart timeout is
scheduled (lines 90-93). -/
def applyTrigger (m : Machine) : Machine :=
  match doSubmitSync m.sess with
  | (s1, SubmitOutcome.request req) =>
      { m with sess := s1, pending := m.pending ++ [req] }
  | (s1, SubmitOutcome.falseStart _) =>
      { m with sess := s1, restarts := m.restarts + 1 }
  | (s1, SubmitOutcome.noop) => { m with sess := s1 }

/-- One dispatch of the event loop.  Each branch is the corresponding
handler from the source: `handleDoneClick` guards on the in-flight flag
before calling `doSubmit` (lines 280-282); the silence timeout dispatches
per `silenceFireHandler`; the ceiling tick decrements and possibly calls
`doSubmit` (lines 242-251); `onend` self-heals (lines 217-232);
`onresult` accumulates the transcript; a scheduled false-start restart
fires `setError('')` plus `startListeningFn()` (lines 90-93) — starting a
fresh listening phase with a fresh `finalTranscript` closure and, at
line 170, forcibly clearing the in-flight flag; a settling response runs
the `doSubmit` continuation on the oldest outstanding request. -/
def step (m : Machine) : Event → Machine
  | Event.manualDone =>
      if m.sess.isSubmitting then m else applyTrigger m
  | Event.silenceFire sp =>
      match silenceFireHandler sp m.sess with
      | SilenceOutcome.rearm =>
          { m with sess := { m.sess with silenceArmed := true } }
      | SilenceOutcome.trigger => applyTrigger m
      | SilenceOutcome.skip => m
  | Event.ceilingTick sp =>
      let p := ceilingTickSess sp m.sess
      if p.2 then applyTrigger { m with sess := p.1 } else { m with sess := p.1 }
  | Event.engineEnd =>
      match m.sess.recognition with
      | some rec => { m with sess := onendHandler rec m.sess }
      | none => m
  | Event.result ev =>
      let p := onresultHandler m.finalT ev m.sess
      { m with finalT := p.1, sess := p.2 }
  | Event.falseStartTimeout =>
      match m.restarts with
      | 0 => m
      | Nat.succ r =>
          { m with sess := falseStartRestart m.sess, finalT := "", restarts := r }
  | Event.response r =>
      match m.pending with
      | [] => m
      | req :: rest =>
          let p := doSubmitResume req m.sess r
          { m with
            sess := p.1
            pending := rest
            completed := match m.completed with
              | some c => some c
              | none => p.2 }

/-- Run the event loop over a list of events. -/
def run (m : Machine) (evs : List Event) : Machine :=
  evs.foldl step m

/-- The machine at mount, before any event. -/
def initMachine (sessionId firstQuestion : String) : Machine :=
  { sess := initialState sessionId firstQuestion
    finalT := ""
    pending := []
    restarts := 0
    completed := none }

/-- Iterate the ceiling-timer interval callback (with a quiescent
environment: no other event fires), stopping as soon as a tick invokes
`doSubmit`.  Returns the final state and whether some tick fired. -/
def tickRun : Nat → SessionState → SessionState × Bool
  | 0, s => (s, false)
  | Nat.succ k, s =>
      let p := ceilingTickSess false s
      if p.2 then (p.1, true) else tickRun k p.1

/-- The finalized fragments of one recognition event, in arrival order. -/
def finalsOf (ev : List Fragment) : List String :=
  (ev.filter (fun f => f.isFinal)).map (fun f => f.text)

/-- The interim fragments of one recognition event, in arrival order. -/
def interimsOf (ev : List Fragment) : List String :=
  (ev.filter (fun f => !f.isFinal)).map (fun f => f.text)

/-- Concatenation of a list of strings. -/
def concatAll : List String → String
  | [] => ""
  | x :: xs => x ++ concatAll xs

/-- Run a sequence of recognition events through `onresultHandler`,
threading the `finalTranscript` closure accumulator and the state. -/
def runResults (finalT : String) (s : SessionState) :
    List (List Fragment) → String × SessionState
  | [] => (finalT, s)
  | ev :: rest =>
      let p := onresultHandler finalT ev s
      runResults p.1 p.2 rest

/-- Modelled from the spec: the external scoring/question-generation
service behind `submitAnswer` is not part of the frontend sources (§6
treats it as an external interface).  Per the spec it answers
`{ next_question, question_count }` while fewer than the fixed total of
turns have completed and `{ final_report }` once the fixed number of turns
completes; `question_count` counts the questions answered so far,
including the one just submitted. -/
def backendRespond (nextQ : Nat → String) (report : String) (req : SubmitRequest) :
    RemoteResult :=
  let count := req.previous_questions.length + 1
  if TOTAL_QUESTIONS ≤ count then RemoteResult.finalReport report
  else RemoteResult.nextQuestion (nextQ count) count

/-- One full turn of the question/answer loop: listening starts
(`startListeningFn`, reached after the question has been spoken), a single
recognition event delivers the candidate's answer as a finalized fragment,
a submission trigger runs `doSubmit`, and the `submitAnswer` promise
settles with the (spec-modelled) service response. -/
def runTurn (nextQ : Nat → String) (report : String) (answer : String)
    (s : SessionState) : SessionState × Option String :=
  let s0 := startListeningFn s
  let s1 := (onresultHandler "" [Fragment.mk true answer] s0).2
  match doSubmitSync s1 with
  | (s2, SubmitOutcome.request req) =>
      doSubmitResume req s2 (backendRespond nextQ report req)
  | (s2, _) => (s2, none)

/-- Run the session loop over a list of answers, one per turn, stopping
when the service returns a final report. -/
def runSession (nextQ : Nat → String) (report : String) :
    SessionState → List String → SessionState × Option String
  | s, [] => (s, none)
  | s, a :: rest =>
      match runTurn nextQ report a s with
      | (s', some rep) => (s', some rep)
      | (s', none) => runSession nextQ report s' rest

/-- The per-turn bookkeeping invariant of the session: the 1-based turn
number mirrors the completed-turn history and never exceeds the fixed
total, and no submission is in flight between turns. -/
def TurnInv (s : SessionState) : Prop :=
  s.questionNumberRef = s.previousQuestionsRef.length + 1 ∧
  s.questionNumber = s.questionNumberRef ∧
  s.previousQuestionsRef.length + 1 ≤ TOTAL_QUESTIONS ∧
  s.isSubmitting = false

/-! ## Helper lemmas -/

theorem cleanupRecording_isSubmitting (s : SessionState) :
    (cleanupRecording s).isSubmitting = s.isSubmitting := rfl

theorem doSubmitSync_of_inflight (s : SessionState) (h : s.isSubmitting = true) :
    doSubmitSync s = (s, SubmitOutcome.noop) := by
  simp [doSubmitSync, h]

theorem ceilingTickSess_isSubmitting (sp : Bool) (s : SessionState) :
    (ceilingTickSess sp s).1.isSubmitting = s.isSubmitting := by
  unfold ceilingTickSess
  split <;> rfl

theorem doSubmitResume_isSubmitting (req : SubmitRequest) (s : SessionState)
    (r : RemoteResult) : (doSubmitResume req s r).1.isSubmitting = false := by
  cases r <;> simp [doSubmitResume]

theorem onendHandler_isSubmitting (rec : Recognition) (s : SessionState) :
    (onendHandler rec s).isSubmitting = s.isSubmitting := by
  unfold onendHandler
  split <;> rfl

/-! ## Claims -/

/-- C1: the claim that at most one submission is ever in flight fails on
the code.  The false-start branch of `doSubmit` schedules an anonymous,
uncancellable restart timeout (lines 90-93) whose `startListeningFn`
forcibly clears the in-flight flag (line 170).  Evaluating the event loop
at the failing interleaving — two empty-transcript Done clicks schedule
two restarts, the first restart re-arms listening, the candidate answers
and a Done click puts a real submission in flight, the second restart then
clears the flag, the candidate answers again and a Done click submits
again — leaves two submissions outstanding at once, both carrying the same
turn's question. -/
theorem falseStart_restart_defeats_inflight_guard :
    (run (initMachine "sid" "Q1")
        [Event.manualDone, Event.manualDone, Event.falseStartTimeout,
         Event.result [Fragment.mk true "hello"], Event.manualDone,
         Event.falseStartTimeout, Event.result [Fragment.mk true "again"],
         Event.manualDone]).pending.length = 2 ∧
    ((run (initMachine "sid" "Q1")
        [Event.manualDone, Event.manualDone, Event.falseStartTimeout,
         Event.result [Fragment.mk true "hello"], Event.manualDone,
         Event.falseStartTimeout, Event.result [Fragment.mk true "again"],
         Event.manualDone]).pending.map
          (fun req => req.current_question)) = ["Q1", "Q1"] := by
  constructor
  · rfl
  · rfl

/-- C2: whenever the silence timer fires while the speech output driver
reports itself as speaking, no submission is triggered: the callback
rearms the silence timer for its full duration and the event-loop step
changes nothing but the armed flag — the session stays in its listening
state and no request is issued. -/
theorem silenceTimer_defers_while_speaking (s : SessionState) (m : Machine) :
    silenceFireHandler true s = SilenceOutcome.rearm ∧
      step m (Event.silenceFire true) =
        { m with sess := { m.sess with silenceArmed := true } } := by
  exact ⟨rfl, rfl⟩

/-- C3: a ceiling-timer tick never consults the output driver's speaking
state; while the countdown is above one it only decrements; when it
reaches its last second the tick zeroes the countdown and invokes
`doSubmit` (the in-flight guard aside); and iterating ticks from any live
countdown, with no submission in flight, fires within the countdown's own
number of ticks — the listening phase cannot outlast the fixed ceiling. -/
theorem ceilingTimer_hard_cutoff (sp sp2 : Bool) (s : SessionState)
    (hsub : s.isSubmitting = false) (h1 : 1 ≤ s.timer) :
    ceilingTickSess sp s = ceilingTickSess sp2 s ∧
    (1 < s.timer → ceilingTickSess sp s = ({ s with timer := s.timer - 1 }, false)) ∧
    (s.timer ≤ 1 → ceilingTickSess sp s = ({ s with timer := 0 }, true)) ∧
    (tickRun s.timer s).2 = true := by
  refine ⟨rfl, ?_, ?_, ?_⟩
  · intro hgt
    unfold ceilingTickSess
    rw [if_neg (by omega)]
  · intro hle
    unfold ceilingTickSess
    rw [if_pos hle, hsub]
    rfl
  · have main : ∀ (t : Nat) (s' : SessionState), s'.isSubmitting = false →
        s'.timer = t → 1 ≤ t → (tickRun t s').2 = true := by
      intro t
      induction t with
      | zero => intro s' _ _ h; omega
      | succ k ih =>
        intro s' hsub' ht hpos
        cases k with
        | zero =>
          have hc : ceilingTickSess false s' = ({ s' with timer := 0 }, true) := by
            unfold ceilingTickSess
            rw [if_pos (by omega), hsub']
            rfl
          simp [tickRun, hc]
        | succ k2 =>
          have hc : ceilingTickSess false s' =
              ({ s' with timer := s'.timer - 1 }, false) := by
            unfold ceilingTickSess
            rw [if_neg (by omega)]
          simp only [tickRun, hc, Bool.false_eq_true, if_false]
          exact ih _ hsub' (show s'.timer - 1 = k2 + 1 by omega) (by omega)
    exact main s.timer s hsub rfl h1

/-- Witness for C3 at a concrete state with two ticks left. -/
theorem ceilingTimer_hard_cutoff_witness :
    (ceilingTickSess true { initialState "sid" "Q1" with timer := 2 } =
        ceilingTickSess false { initialState "sid" "Q1" with timer := 2 }) ∧
    (1 < ({ initialState "sid" "Q1" with timer := 2 } : SessionState).timer →
      ceilingTickSess true { initialState "sid" "Q1" with timer := 2 } =
        ({ initialState "sid" "Q1" with timer := 1 }, false)) ∧
    (({ initialState "sid" "Q1" with timer := 2 } : SessionState).timer ≤ 1 →
      ceilingTickSess true { initialState "sid" "Q1" with timer := 2 } =
        ({ initialState "sid" "Q1" with timer := 0 }, true)) ∧
    (tickRun ({ initialState "sid" "Q1" with timer := 2 } : SessionState).timer
        { initialState "sid" "Q1" with timer := 2 }).2 = true :=
  ceilingTimer_hard_cutoff true false { initialState "sid" "Q1" with timer := 2 }
    rfl (by norm_num [initialState])

/-- C4: on the capture engine's end event, when the controller still wants
input (`shouldListen` set, no submission in flight) a brand-new started
recognition is constructed with the same fragment, error and end handlers
re-attached and stored as the live handle; on an intentional stop
(`shouldListen` cleared or a submission in flight) nothing happens. -/
theorem onend_selfHealing (rec : Recognition) (s : SessionState) :
    (s.shouldListen = true → s.isSubmitting = false →
      onendHandler rec s =
        { s with recognition :=
                   some (newRecognition rec.onresult rec.onerror rec.onend) }) ∧
    ((s.shouldListen = false ∨ s.isSubmitting = true) → onendHandler rec s = s) := by
  constructor
  · intro hl hsub
    unfold onendHandler
    rw [hl, hsub]
    rfl
  · intro h
    unfold onendHandler
    cases h with
    | inl hl => rw [hl]; rfl
    | inr hsub => rw [hsub]; simp
/-- Witness for C4: unexpected stop restarts with the same handlers; an
intentional stop does not. -/
theorem onend_selfHealing_witness :
    ((onendHandler (newRecognition 7 8 9)
        { initialState "sid" "Q1" with shouldListen := true }).recognition =
      some (newRecognition 7 8 9)) ∧
    (onendHandler (newRecognition 7 8 9) (initialState "sid" "Q1") =
      initialState "sid" "Q1") := by
  constructor
  · rw [(onend_selfHealing (newRecognition 7 8 9)
      { initialState "sid" "Q1" with shouldListen := true }).1 rfl rfl]
    rfl
  · exact (onend_selfHealing (newRecognition 7 8 9) (initialState "sid" "Q1")).2
      (Or.inl rfl)


theorem concatAll_append (l1 l2 : List String) :
    concatAll (l1 ++ l2) = concatAll l1 ++ concatAll l2 := by
  induction l1 with
  | nil => simp [concatAll, String.empty_append]
  | cons x xs ih => simp [concatAll, ih, String.append_assoc]

theorem processEvent_go (ft it : String) (ev : List Fragment) :
    ev.foldl
      (fun acc f =>
        if f.isFinal then (acc.1 ++ f.text ++ " ", acc.2) else (acc.1, acc.2 ++ f.text))
      (ft, it) =
      (ft ++ concatAll ((finalsOf ev).map (fun t => t ++ " ")),
       it ++ concatAll (interimsOf ev)) := by
  induction ev generalizing ft it with
  | nil => simp [finalsOf, interimsOf, concatAll, String.append_empty]
  | cons f fs ih =>
    cases hf : f.isFinal with
    | true =>
      simp only [List.foldl_cons, hf, if_pos rfl, Bool.true_eq_false, ite_true]
      rw [ih]
      simp [finalsOf, interimsOf, hf, concatAll, String.append_assoc]
    | false =>
      simp only [List.foldl_cons, hf, Bool.false_eq_true, ite_false]
      rw [ih]
      simp [finalsOf, interimsOf, hf, concatAll, String.append_assoc]

theorem processEvent_eq (ft : String) (ev : List Fragment) :
    processEvent ft ev =
      (ft ++ concatAll ((finalsOf ev).map (fun t => t ++ " ")),
       concatAll (interimsOf ev)) := by
  unfold processEvent
  rw [processEvent_go]
  rw [String.empty_append]

theorem runResults_snoc (evs : List (List Fragment)) (ev : List Fragment)
    (ft : String) (s : SessionState) :
    (runResults ft s (evs ++ [ev])).2.transcriptRef =
      ft ++ concatAll (((evs ++ [ev]).flatMap finalsOf).map (fun t => t ++ " ")) ++
        concatAll (interimsOf ev) ∧
    (runResults ft s (evs ++ [ev])).2.transcript =
      (runResults ft s (evs ++ [ev])).2.transcriptRef := by
  induction evs generalizing ft s with
  | nil =>
    simp only [List.nil_append, runResults, onresultHandler, processEvent_eq]
    constructor
    · simp [String.append_assoc]
    · trivial
  | cons e rest ih =>
    simp only [List.cons_append, runResults, onresultHandler, processEvent_eq,
      List.append_eq]
    refine ⟨?_, (ih _ _).2⟩
    rw [(ih _ _).1]
    simp [concatAll_append, String.append_assoc]

/-- C5: after each recognition event, the running transcript (both the ref
and the rendered state) equals the concatenation, in arrival order, of all
finalized fragments so far — each followed by a single space — followed by
the interim fragments of the latest event only: finalized text is never
duplicated and interim text is replaced, not accumulated. -/
theorem transcript_accumulation (evs : List (List Fragment)) (ev : List Fragment)
    (s : SessionState) :
    (runResults "" s (evs ++ [ev])).2.transcriptRef =
      concatAll (((evs ++ [ev]).flatMap finalsOf).map (fun t => t ++ " ")) ++
        concatAll (interimsOf ev) ∧
    (runResults "" s (evs ++ [ev])).2.transcript =
      (runResults "" s (evs ++ [ev])).2.transcriptRef := by
  have h := runResults_snoc evs ev "" s
  rwa [String.empty_append] at h

theorem doSubmitSync_empty (s : SessionState)
    (hsub : s.isSubmitting = false) (ht : jsTrim s.transcriptRef = "") :
    doSubmitSync s =
      ({ cleanupRecording s with error := "No speech detected. Listening again…" },
       SubmitOutcome.falseStart 2000) := by
  unfold doSubmitSync
  rw [hsub]
  simp only [Bool.false_eq_true, if_false, ht, if_pos rfl]
  rfl

/-- C6: invoking `doSubmit` with a whitespace-only transcript makes no
remote call (the outcome is a false start, not a request), surfaces the
no-speech message, leaves the turn number untouched, and the restart
scheduled after the fixed 2000 ms delay puts the same turn back into the
recording state with the turn number still unchanged. -/
theorem emptyTranscript_falseStart (s : SessionState)
    (hsub : s.isSubmitting = false) (ht : jsTrim s.transcriptRef = "") :
    (doSubmitSync s).2 = SubmitOutcome.falseStart 2000 ∧
    (doSubmitSync s).1.error = "No speech detected. Listening again…" ∧
    (doSubmitSync s).1.questionNumber = s.questionNumber ∧
    (doSubmitSync s).1.questionNumberRef = s.questionNumberRef ∧
    (falseStartRestart (doSubmitSync s).1).status = Status.recording ∧
    (falseStartRestart (doSubmitSync s).1).isRecording = true ∧
    (falseStartRestart (doSubmitSync s).1).questionNumber = s.questionNumber ∧
    (falseStartRestart (doSubmitSync s).1).questionNumberRef = s.questionNumberRef := by
  have h := doSubmitSync_empty s hsub ht
  refine ⟨?_, ?_, ?_, ?_, ?_, ?_, ?_, ?_⟩ <;> rw [h] <;> rfl

/-- Witness for C6 at the freshly mounted state (empty transcript). -/
theorem emptyTranscript_falseStart_witness :
    ((doSubmitSync (initialState "sid" "Q1")).2 = SubmitOutcome.falseStart 2000 ∧
    (doSubmitSync (initialState "sid" "Q1")).1.error =
      "No speech detected. Listening again…" ∧
    (doSubmitSync (initialState "sid" "Q1")).1.questionNumber =
      (initialState "sid" "Q1").questionNumber ∧
    (doSubmitSync (initialState "sid" "Q1")).1.questionNumberRef =
      (initialState "sid" "Q1").questionNumberRef ∧
    (falseStartRestart (doSubmitSync (initialState "sid" "Q1")).1).status =
      Status.recording ∧
    (falseStartRestart (doSubmitSync (initialState "sid" "Q1")).1).isRecording = true ∧
    (falseStartRestart (doSubmitSync (initialState "sid" "Q1")).1).questionNumber =
      (initialState "sid" "Q1").questionNumber ∧
    (falseStartRestart (doSubmitSync (initialState "sid" "Q1")).1).questionNumberRef =
      (initialState "sid" "Q1").questionNumberRef) :=
  emptyTranscript_falseStart (initialState "sid" "Q1") rfl rfl

/-- C10: on the false-start path (submit invoked with a whitespace-only
transcript while no submission is in flight) the in-flight flag stays
false throughout the invocation, and the resulting state differs from the
input state only in the error message and the recording resources torn
down by `cleanupRecording` (capture handle, both timers, the recording and
listen flags). -/
theorem falseStart_frame (s : SessionState)
    (hsub : s.isSubmitting = false) (ht : jsTrim s.transcriptRef = "") :
    (doSubmitSync s).1.isSubmitting = false ∧
    (doSubmitSync s).2 = SubmitOutcome.falseStart 2000 ∧
    (doSubmitSync s).1 =
      { s with
        error := "No speech detected. Listening again…"
        recognition := none
        timerIntervalActive := false
        silenceArmed := false
        isRecording := false
        shouldListen := false } := by
  have h := doSubmitSync_empty s hsub ht
  refine ⟨?_, ?_, ?_⟩ <;> rw [h]
  · exact hsub
  · rfl

/-- Witness for C10 at a state with live timers and a whitespace-only
transcript. -/
theorem falseStart_frame_witness :
    (doSubmitSync { initialState "sid" "Q1" with
        transcriptRef := "  ", silenceArmed := true, shouldListen := true }).1.isSubmitting
      = false ∧
    (doSubmitSync { initialState "sid" "Q1" with
        transcriptRef := "  ", silenceArmed := true, shouldListen := true }).2 =
      SubmitOutcome.falseStart 2000 ∧
    (doSubmitSync { initialState "sid" "Q1" with
        transcriptRef := "  ", silenceArmed := true, shouldListen := true }).1 =
      { ({ initialState "sid" "Q1" with
            transcriptRef := "  ", silenceArmed := true, shouldListen := true } :
          SessionState) with
        error := "No speech detected. Listening again…"
        recognition := none
        timerIntervalActive := false
        silenceArmed := false
        isRecording := false
        shouldListen := false } :=
  falseStart_frame
    { initialState "sid" "Q1" with
        transcriptRef := "  ", silenceArmed := true, shouldListen := true }
    rfl (by decide)

theorem doSubmitSync_request (s : SessionState) (hs : s.isSubmitting = false)
    (ht : jsTrim s.transcriptRef ≠ "") :
    (doSubmitSync s).2 =
      SubmitOutcome.request
        { session_id := s.sessionId
          current_question := s.currentQuestionRef
          current_answer := jsTrim s.transcriptRef
          previous_questions := s.previousQuestionsRef
          previous_answers := s.previousAnswersRef } := by
  unfold doSubmitSync
  rw [hs]
  simp only [Bool.false_eq_true, if_false, if_neg ht]

/-- C7: the request issued by `doSubmit` carries exactly the question and
(trimmed) transcript read from the refs in the same synchronous block that
stopped capture, together with the histories as of that instant; and on a
next-question response the histories are extended with exactly that
captured (question, answer) pair — regardless of the state `s2` the
component has mutated to by the time the response arrives. -/
theorem submission_payload_exact (s s2 : SessionState) (req : SubmitRequest)
    (hreq : (doSubmitSync s).2 = SubmitOutcome.request req)
    (nq : String) (qc : Nat) :
    req.session_id = s.sessionId ∧
    req.current_question = s.currentQuestionRef ∧
    req.current_answer = jsTrim s.transcriptRef ∧
    req.previous_questions = s.previousQuestionsRef ∧
    req.previous_answers = s.previousAnswersRef ∧
    (doSubmitResume req s2 (RemoteResult.nextQuestion nq qc)).1.previousQuestionsRef =
      s.previousQuestionsRef ++ [s.currentQuestionRef] ∧
    (doSubmitResume req s2 (RemoteResult.nextQuestion nq qc)).1.previousAnswersRef =
      s.previousAnswersRef ++ [jsTrim s.transcriptRef] := by
  have hfields : req.session_id = s.sessionId ∧
      req.current_question = s.currentQuestionRef ∧
      req.current_answer = jsTrim s.transcriptRef ∧
      req.previous_questions = s.previousQuestionsRef ∧
      req.previous_answers = s.previousAnswersRef := by
    cases hs : s.isSubmitting with
    | true =>
      rw [doSubmitSync_of_inflight s hs] at hreq
      exact absurd hreq (by simp)
    | false =>
      by_cases ht : jsTrim s.transcriptRef = ""
      · rw [doSubmitSync_empty s hs ht] at hreq
        exact absurd hreq (by simp)
      · rw [doSubmitSync_request s hs ht] at hreq
        have hreq2 := (SubmitOutcome.request.injEq _ _).mp hreq
        rw [← hreq2]
        exact ⟨rfl, rfl, rfl, rfl, rfl⟩
  refine ⟨hfields.1, hfields.2.1, hfields.2.2.1, hfields.2.2.2.1, hfields.2.2.2.2, ?_, ?_⟩
  · show req.previous_questions ++ [req.current_question] =
      s.previousQuestionsRef ++ [s.currentQuestionRef]
    rw [hfields.2.2.2.1, hfields.2.1]
  · show req.previous_answers ++ [req.current_answer] =
      s.previousAnswersRef ++ [jsTrim s.transcriptRef]
    rw [hfields.2.2.2.2, hfields.2.2.1]

/-- Witness for C7: a concrete submission whose response arrives after the
state has been mutated. -/
theorem submission_payload_exact_witness :
    ({ session_id := "sid", current_question := "Q1", current_answer := "hello",
       previous_questions := [], previous_answers := [] } : SubmitRequest).session_id =
        ({ initialState "sid" "Q1" with transcriptRef := "hello" } : SessionState).sessionId ∧
    ({ session_id := "sid", current_question := "Q1", current_answer := "hello",
       previous_questions := [], previous_answers := [] } : SubmitRequest).current_question =
        ({ initialState "sid" "Q1" with transcriptRef := "hello" } : SessionState).currentQuestionRef ∧
    ({ session_id := "sid", current_question := "Q1", current_answer := "hello",
       previous_questions := [], previous_answers := [] } : SubmitRequest).current_answer =
        jsTrim ({ initialState "sid" "Q1" with transcriptRef := "hello" } : SessionState).transcriptRef ∧
    ({ session_id := "sid", current_question := "Q1", current_answer := "hello",
       previous_questions := [], previous_answers := [] } : SubmitRequest).previous_questions =
        ({ initialState "sid" "Q1" with transcriptRef := "hello" } : SessionState).previousQuestionsRef ∧
    ({ session_id := "sid", current_question := "Q1", current_answer := "hello",
       previous_questions := [], previous_answers := [] } : SubmitRequest).previous_answers =
        ({ initialState "sid" "Q1" with transcriptRef := "hello" } : SessionState).previousAnswersRef ∧
    (doSubmitResume
        { session_id := "sid", current_question := "Q1", current_answer := "hello",
          previous_questions := [], previous_answers := [] }
        { initialState "sid" "MUTATED-LATER" with currentQuestionRef := "MUTATED-LATER" }
        (RemoteResult.nextQuestion "Q2" 1)).1.previousQuestionsRef =
      ({ initialState "sid" "Q1" with transcriptRef := "hello" } : SessionState).previousQuestionsRef ++
        [({ initialState "sid" "Q1" with transcriptRef := "hello" } : SessionState).currentQuestionRef] ∧
    (doSubmitResume
        { session_id := "sid", current_question := "Q1", current_answer := "hello",
          previous_questions := [], previous_answers := [] }
        { initialState "sid" "MUTATED-LATER" with currentQuestionRef := "MUTATED-LATER" }
        (RemoteResult.nextQuestion "Q2" 1)).1.previousAnswersRef =
      ({ initialState "sid" "Q1" with transcriptRef := "hello" } : SessionState).previousAnswersRef ++
        [jsTrim ({ initialState "sid" "Q1" with transcriptRef := "hello" } : SessionState).transcriptRef] :=
  submission_payload_exact
    { initialState "sid" "Q1" with transcriptRef := "hello" }
    { initialState "sid" "MUTATED-LATER" with currentQuestionRef := "MUTATED-LATER" }
    { session_id := "sid", current_question := "Q1", current_answer := "hello",
      previous_questions := [], previous_answers := [] }
    (by decide) "Q2" 1

/-- C8: when the remote call rejects, a non-empty error message is set,
the status becomes idle (the completion callback is not invoked), the turn
number, current question, histories and transcript are unchanged, and the
in-flight flag is cleared — so a later retry signal, issued while nothing
is pending, reaches the request path again. -/
theorem submission_failure_recovery (req : SubmitRequest) (s : SessionState)
    (msg : String) :
    (doSubmitResume req s (RemoteResult.failure msg)).1.error ≠ "" ∧
    (doSubmitResume req s (RemoteResult.failure msg)).1.status = Status.idle ∧
    (doSubmitResume req s (RemoteResult.failure msg)).2 = none ∧
    (doSubmitResume req s (RemoteResult.failure msg)).1.questionNumber =
      s.questionNumber ∧
    (doSubmitResume req s (RemoteResult.failure msg)).1.questionNumberRef =
      s.questionNumberRef ∧
    (doSubmitResume req s (RemoteResult.failure msg)).1.currentQuestion =
      s.currentQuestion ∧
    (doSubmitResume req s (RemoteResult.failure msg)).1.currentQuestionRef =
      s.currentQuestionRef ∧
    (doSubmitResume req s (RemoteResult.failure msg)).1.previousQuestionsRef =
      s.previousQuestionsRef ∧
    (doSubmitResume req s (RemoteResult.failure msg)).1.previousAnswersRef =
      s.previousAnswersRef ∧
    (doSubmitResume req s (RemoteResult.failure msg)).1.transcriptRef =
      s.transcriptRef ∧
    (doSubmitResume req s (RemoteResult.failure msg)).1.isSubmitting = false ∧
    (jsTrim s.transcriptRef ≠ "" →
      ∃ req2,
        (doSubmitSync (doSubmitResume req s (RemoteResult.failure msg)).1).2 =
          SubmitOutcome.request req2) := by
  refine ⟨?_, rfl, rfl, rfl, rfl, rfl, rfl, rfl, rfl, rfl, rfl, ?_⟩
  · show (if msg = "" then "Something went wrong. Please try again." else msg) ≠ ""
    by_cases hm : msg = ""
    · rw [if_pos hm]
      intro hcontra
      exact absurd hcontra (by decide)
    · rw [if_neg hm]
      exact hm
  · intro ht
    exact ⟨_, doSubmitSync_request _ rfl ht⟩

/-- Witness for C8 at a concrete failed submission with a retryable
transcript. -/
theorem submission_failure_recovery_witness :
    (doSubmitResume
        { session_id := "sid", current_question := "Q1", current_answer := "hello",
          previous_questions := [], previous_answers := [] }
        { initialState "sid" "Q1" with transcriptRef := "hello" }
        (RemoteResult.failure "network error")).1.error ≠ "" ∧
    (doSubmitResume
        { session_id := "sid", current_question := "Q1", current_answer := "hello",
          previous_questions := [], previous_answers := [] }
        { initialState "sid" "Q1" with transcriptRef := "hello" }
        (RemoteResult.failure "network error")).1.status = Status.idle ∧
    (doSubmitResume
        { session_id := "sid", current_question := "Q1", current_answer := "hello",
          previous_questions := [], previous_answers := [] }
        { initialState "sid" "Q1" with transcriptRef := "hello" }
        (RemoteResult.failure "network error")).2 = none ∧
    (doSubmitResume
        { session_id := "sid", current_question := "Q1", current_answer := "hello",
          previous_questions := [], previous_answers := [] }
        { initialState "sid" "Q1" with transcriptRef := "hello" }
        (RemoteResult.failure "network error")).1.questionNumber =
      ({ initialState "sid" "Q1" with transcriptRef := "hello" } : SessionState).questionNumber ∧
    (doSubmitResume
        { session_id := "sid", current_question := "Q1", current_answer := "hello",
          previous_questions := [], previous_answers := [] }
        { initialState "sid" "Q1" with transcriptRef := "hello" }
        (RemoteResult.failure "network error")).1.questionNumberRef =
      ({ initialState "sid" "Q1" with transcriptRef := "hello" } : SessionState).questionNumberRef ∧
    (doSubmitResume
        { session_id := "sid", current_question := "Q1", current_answer := "hello",
          previous_questions := [], previous_answers := [] }
        { initialState "sid" "Q1" with transcriptRef := "hello" }
        (RemoteResult.failure "network error")).1.currentQuestion =
      ({ initialState "sid" "Q1" with transcriptRef := "hello" } : SessionState).currentQuestion ∧
    (doSubmitResume
        { session_id := "sid", current_question := "Q1", current_answer := "hello",
          previous_questions := [], previous_answers := [] }
        { initialState "sid" "Q1" with transcriptRef := "hello" }
        (RemoteResult.failure "network error")).1.currentQuestionRef =
      ({ initialState "sid" "Q1" with transcriptRef := "hello" } : SessionState).currentQuestionRef ∧
    (doSubmitResume
        { session_id := "sid", current_question := "Q1", current_answer := "hello",
          previous_questions := [], previous_answers := [] }
        { initialState "sid" "Q1" with transcriptRef := "hello" }
        (RemoteResult.failure "network error")).1.previousQuestionsRef =
      ({ initialState "sid" "Q1" with transcriptRef := "hello" } : SessionState).previousQuestionsRef ∧
    (doSubmitResume
        { session_id := "sid", current_question := "Q1", current_answer := "hello",
          previous_questions := [], previous_answers := [] }
        { initialState "sid" "Q1" with transcriptRef := "hello" }
        (RemoteResult.failure "network error")).1.previousAnswersRef =
      ({ initialState "sid" "Q1" with transcriptRef := "hello" } : SessionState).previousAnswersRef ∧
    (doSubmitResume
        { session_id := "sid", current_question := "Q1", current_answer := "hello",
          previous_questions := [], previous_answers := [] }
        { initialState "sid" "Q1" with transcriptRef := "hello" }
        (RemoteResult.failure "network error")).1.transcriptRef =
      ({ initialState "sid" "Q1" with transcriptRef := "hello" } : SessionState).transcriptRef ∧
    (doSubmitResume
        { session_id := "sid", current_question := "Q1", current_answer := "hello",
          previous_questions := [], previous_answers := [] }
        { initialState "sid" "Q1" with transcriptRef := "hello" }
        (RemoteResult.failure "network error")).1.isSubmitting = false ∧
    (jsTrim ({ initialState "sid" "Q1" with transcriptRef := "hello" } :
        SessionState).transcriptRef ≠ "" →
      ∃ req2,
        (doSubmitSync (doSubmitResume
            { session_id := "sid", current_question := "Q1", current_answer := "hello",
              previous_questions := [], previous_answers := [] }
            { initialState "sid" "Q1" with transcriptRef := "hello" }
            (RemoteResult.failure "network error")).1).2 =
          SubmitOutcome.request req2) :=
  submission_failure_recovery
    { session_id := "sid", current_question := "Q1", current_answer := "hello",
      previous_questions := [], previous_answers := [] }
    { initialState "sid" "Q1" with transcriptRef := "hello" }
    "network error"

theorem doSubmitSync_request_full (s : SessionState) (hs : s.isSubmitting = false)
    (ht : jsTrim s.transcriptRef ≠ "") :
    doSubmitSync s =
      ({ cleanupRecording { s with isSubmitting := true } with
           status := Status.processing, error := "" },
       SubmitOutcome.request
         { session_id := s.sessionId
           current_question := s.currentQuestionRef
           current_answer := jsTrim s.transcriptRef
           previous_questions := s.previousQuestionsRef
           previous_answers := s.previousAnswersRef }) := by
  unfold doSubmitSync
  rw [hs]
  simp only [Bool.false_eq_true, if_false, if_neg ht]

theorem runTurn_completes (nextQ : Nat → String) (report a : String) (s : SessionState)
    (ha : jsTrim (a ++ " ") ≠ "")
    (hfin : TOTAL_QUESTIONS ≤ s.previousQuestionsRef.length + 1) :
    (runTurn nextQ report a s).2 = some report ∧
    (runTurn nextQ report a s).1.questionNumberRef = s.questionNumberRef ∧
    (runTurn nextQ report a s).1.questionNumber = s.questionNumber := by
  have htr : ((onresultHandler "" [Fragment.mk true a] (startListeningFn s)).2).transcriptRef
      = a ++ " " := by
    simp [onresultHandler, processEvent, String.empty_append, String.append_empty]
  simp only [runTurn]
  rw [doSubmitSync_request_full _ rfl (by rw [htr]; exact ha)]
  simp only [backendRespond, htr]
  rw [if_pos (by simpa using hfin)]
  simp only [doSubmitResume]
  refine ⟨trivial, rfl, rfl⟩

theorem runTurn_advances (nextQ : Nat → String) (report a : String) (s : SessionState)
    (ha : jsTrim (a ++ " ") ≠ "")
    (hlt : s.previousQuestionsRef.length + 1 < TOTAL_QUESTIONS) :
    (runTurn nextQ report a s).2 = none ∧
    (runTurn nextQ report a s).1.previousQuestionsRef =
      s.previousQuestionsRef ++ [s.currentQuestionRef] ∧
    (runTurn nextQ report a s).1.questionNumberRef =
      s.previousQuestionsRef.length + 2 ∧
    (runTurn nextQ report a s).1.questionNumber =
      s.previousQuestionsRef.length + 2 := by
  have htr : ((onresultHandler "" [Fragment.mk true a] (startListeningFn s)).2).transcriptRef
      = a ++ " " := by
    simp [onresultHandler, processEvent, String.empty_append, String.append_empty]
  simp only [runTurn]
  rw [doSubmitSync_request_full _ rfl (by rw [htr]; exact ha)]
  simp only [backendRespond, htr]
  rw [if_neg (by simpa using Nat.not_le.mpr hlt)]
  simp only [doSubmitResume]
  refine ⟨trivial, rfl, rfl, rfl⟩

theorem runSession_spec (nextQ : Nat → String) (report : String)
    (answers : List String) (s : SessionState)
    (hans : ∀ x ∈ answers, jsTrim (x ++ " ") ≠ "")
    (h1 : s.questionNumberRef = s.previousQuestionsRef.length + 1)
    (h2 : s.questionNumber = s.questionNumberRef)
    (h3 : s.previousQuestionsRef.length + 1 ≤ TOTAL_QUESTIONS) :
    (1 ≤ (runSession nextQ report s answers).1.questionNumberRef ∧
     (runSession nextQ report s answers).1.questionNumberRef ≤ TOTAL_QUESTIONS ∧
     (runSession nextQ report s answers).1.questionNumber =
       (runSession nextQ report s answers).1.questionNumberRef) ∧
    ((runSession nextQ report s answers).2 = some report ↔
      TOTAL_QUESTIONS ≤ s.previousQuestionsRef.length + answers.length) := by
  induction answers generalizing s with
  | nil =>
    simp only [runSession]
    refine ⟨⟨by omega, by omega, h2⟩, ?_⟩
    constructor
    · intro hcontra
      exact Option.noConfusion hcontra
    · intro hge
      exact absurd hge (by simp; omega)
  | cons a rest ih =>
    by_cases hfin : TOTAL_QUESTIONS ≤ s.previousQuestionsRef.length + 1
    · have hr := runTurn_completes nextQ report a s (hans a (by simp)) hfin
      rcases heq : runTurn nextQ report a s with ⟨s2, r2⟩
      rw [heq] at hr
      have hr2 : r2 = some report := hr.1
      subst hr2
      simp only [runSession, heq]
      refine ⟨⟨?_, ?_, ?_⟩, ?_⟩
      · have hq : s2.questionNumberRef = s.questionNumberRef := hr.2.1
        rw [hq, h1]
        omega
      · have hq : s2.questionNumberRef = s.questionNumberRef := hr.2.1
        rw [hq, h1]
        omega
      · have hq : s2.questionNumberRef = s.questionNumberRef := hr.2.1
        have hq2 : s2.questionNumber = s.questionNumber := hr.2.2
        rw [hq, hq2, h2]
      · constructor
        · intro _
          simp only [List.length_cons]
          omega
        · intro _
          trivial
    · have hlt : s.previousQuestionsRef.length + 1 < TOTAL_QUESTIONS := by omega
      have hr := runTurn_advances nextQ report a s (hans a (by simp)) hlt
      rcases heq : runTurn nextQ report a s with ⟨s2, r2⟩
      rw [heq] at hr
      have hr2 : r2 = none := hr.1
      subst hr2
      simp only [runSession, heq]
      have hprev : s2.previousQuestionsRef =
          s.previousQuestionsRef ++ [s.currentQuestionRef] := hr.2.1
      have hlen : s2.previousQuestionsRef.length = s.previousQuestionsRef.length + 1 := by
        rw [hprev]
        simp
      have hqr : s2.questionNumberRef = s.previousQuestionsRef.length + 2 := hr.2.2.1
      have hqn : s2.questionNumber = s.previousQuestionsRef.length + 2 := hr.2.2.2
      have ihr := ih s2 (fun x hx => hans x (by simp [hx]))
        (by rw [hqr, hlen]) (by rw [hqn, hqr]) (by rw [hlen]; omega)
      refine ⟨ihr.1, ?_⟩
      rw [ihr.2, hlen]
      simp only [List.length_cons]
      constructor
      · intro hh
        omega
      · intro hh
        omega


/-- C9: starting from mount, for every sequence of non-empty answers the
current turn number stays 1-based and never exceeds `TOTAL_QUESTIONS`, and
the question/answer loop terminates with the final report exactly when the
fixed total of turns has completed: the run produces the report iff at
least `TOTAL_QUESTIONS` answers were given, with the fifth submission,
never earlier. -/
theorem turn_bound_and_termination (sid fq report : String) (nextQ : Nat → String)
    (answers : List String) (hans : ∀ x ∈ answers, jsTrim (x ++ " ") ≠ "") :
    (1 ≤ (runSession nextQ report (initialState sid fq) answers).1.questionNumberRef ∧
     (runSession nextQ report (initialState sid fq) answers).1.questionNumberRef ≤
       TOTAL_QUESTIONS ∧
     (runSession nextQ report (initialState sid fq) answers).1.questionNumber =
       (runSession nextQ report (initialState sid fq) answers).1.questionNumberRef) ∧
    ((runSession nextQ report (initialState sid fq) answers).2 = some report ↔
      TOTAL_QUESTIONS ≤ answers.length) := by
  have h := runSession_spec nextQ report answers (initialState sid fq) hans rfl rfl
    (by norm_num [initialState, TOTAL_QUESTIONS])
  simpa [initialState] using h

/-- Witness for C9: a five-answer session completes with the report and a
four-answer session does not. -/
theorem turn_bound_and_termination_witness :
    ((1 ≤ (runSession (fun _ => "NextQ") "the report" (initialState "sid" "Q1")
        ["a1", "a2", "a3", "a4", "a5"]).1.questionNumberRef ∧
      (runSession (fun _ => "NextQ") "the report" (initialState "sid" "Q1")
        ["a1", "a2", "a3", "a4", "a5"]).1.questionNumberRef ≤ TOTAL_QUESTIONS ∧
      (runSession (fun _ => "NextQ") "the report" (initialState "sid" "Q1")
        ["a1", "a2", "a3", "a4", "a5"]).1.questionNumber =
        (runSession (fun _ => "NextQ") "the report" (initialState "sid" "Q1")
          ["a1", "a2", "a3", "a4", "a5"]).1.questionNumberRef) ∧
     ((runSession (fun _ => "NextQ") "the report" (initialState "sid" "Q1")
        ["a1", "a2", "a3", "a4", "a5"]).2 = some "the report" ↔
       TOTAL_QUESTIONS ≤ (["a1", "a2", "a3", "a4", "a5"] : List String).length)) ∧
    ((1 ≤ (runSession (fun _ => "NextQ") "the report" (initialState "sid" "Q1")
        ["a1", "a2", "a3", "a4"]).1.questionNumberRef ∧
      (runSession (fun _ => "NextQ") "the report" (initialState "sid" "Q1")
        ["a1", "a2", "a3", "a4"]).1.questionNumberRef ≤ TOTAL_QUESTIONS ∧
      (runSession (fun _ => "NextQ") "the report" (initialState "sid" "Q1")
        ["a1", "a2", "a3", "a4"]).1.questionNumber =
        (runSession (fun _ => "NextQ") "the report" (initialState "sid" "Q1")
          ["a1", "a2", "a3", "a4"]).1.questionNumberRef) ∧
     ((runSession (fun _ => "NextQ") "the report" (initialState "sid" "Q1")
        ["a1", "a2", "a3", "a4"]).2 = some "the report" ↔
       TOTAL_QUESTIONS ≤ (["a1", "a2", "a3", "a4"] : List String).length)) :=
  ⟨turn_bound_and_termination "sid" "Q1" "the report" (fun _ => "NextQ")
      ["a1", "a2", "a3", "a4", "a5"] (by decide),
   turn_bound_and_termination "sid" "Q1" "the report" (fun _ => "NextQ")
      ["a1", "a2", "a3", "a4"] (by decide)⟩

end InterviewSession
